import Mathlib

/-!
Shallow embedding of the client-side UI state controller of the
SudRegAPIguide repository (src/script.js): theme management, language
switching, the sidebar navigation click handler and the askAI deep link
into the external assistant service.

The DOM and localStorage state that the script reads and writes is
modelled explicitly as a record `Doc`. An attribute that may be absent
(getAttribute returning null) is an `Option String`; a localStorage key
is an `Option String` (none = key absent). Assigning null to textContent
yields the empty string, and the JavaScript truthiness default `x || d`
treats both null and the empty string as falsy.
-/

namespace SudRegGuide

/-- A content element matched by the selector [data-lang]; `display` is its
inline style display value (the empty string means no inline override, so the
element is visible). -/
structure ContentEl where
  dataLang : String
  display : String
deriving DecidableEq

/-- A sidebar element matched by the selector [data-hr], [data-en]: it carries
at least one of the two per-language data attributes. -/
structure SidebarEl where
  dataHr : Option String
  dataEn : Option String
  textContent : String
deriving DecidableEq

/-- A language-switcher button (.lang-switcher-inline button). -/
structure LangButton where
  id : String
  active : Bool
deriving DecidableEq

/-- A page element that a sidebar link anchor can target, with its id and its
vertical offset (offsetTop). -/
structure PageSection where
  id : String
  offsetTop : Int
deriving DecidableEq

/-- The part of the browser state that src/script.js reads and writes:
the data-theme attribute and lang property of document.documentElement,
the two localStorage keys, the two theme icons, the prism stylesheet link,
the data-lang content elements, the sidebar text elements, the language
buttons, the sidebar active class, and the sections targeted by links. -/
structure Doc where
  dataTheme : Option String
  lang : String
  storageTheme : Option String
  storageLanguage : Option String
  sunDisplay : String
  moonDisplay : String
  prismHref : Option String
  contentEls : List ContentEl
  sidebarEls : List SidebarEl
  langButtons : List LangButton
  sidebarActive : Bool
  sections : List PageSection
deriving DecidableEq

/-- Stylesheet URL assigned by the dark branch of setTheme. -/
def prismDarkHref : String :=
  "https://cdnjs.cloudflare.com/ajax/libs/prism/1.29.0/themes/prism-tomorrow.min.css"

/-- Stylesheet URL assigned by the light branch of setTheme. -/
def prismLightHref : String :=
  "https://cdnjs.cloudflare.com/ajax/libs/prism/1.29.0/themes/prism.min.css"

/-- setTheme from src/script.js lines 10-28: store the raw argument as the
root attribute and the persisted value, then branch on strict equality with
"dark" to set the icon displays and, when the prism-theme link element exists,
its stylesheet URL. -/
def setTheme (theme : String) (d : Doc) : Doc :=
  let d1 : Doc := { d with dataTheme := some theme, storageTheme := some theme }
  if theme = "dark" then
    { d1 with sunDisplay := "none", moonDisplay := "block",
              prismHref := d1.prismHref.map fun _ => prismDarkHref }
  else
    { d1 with sunDisplay := "block", moonDisplay := "none",
              prismHref := d1.prismHref.map fun _ => prismLightHref }

/-- toggleTheme from src/script.js lines 2-8: read the data-theme attribute
(null when unset, modelled as none) and compare with strict equality against
"dark"; the ternary yields "light" exactly when the attribute equals "dark". -/
def toggleTheme (d : Doc) : Doc :=
  let newTheme := if d.dataTheme = some "dark" then "light" else "dark"
  setTheme newTheme d

/-- getAttribute of the attribute named by the template data-lang for the two
attributes a modelled sidebar element can carry; any other name is absent. -/
def getLangAttr (el : SidebarEl) (lang : String) : Option String :=
  if lang = "hr" then el.dataHr
  else if lang = "en" then el.dataEn
  else none

/-- switchLanguage from src/script.js lines 31-49: set the document language,
persist it, show exactly the data-lang matches, rewrite sidebar text from the
per-language data attribute (null becomes the empty string), and mark the
matching language button active. -/
def switchLanguage (lang : String) (d : Doc) : Doc :=
  { d with
    lang := lang
    storageLanguage := some lang
    contentEls := d.contentEls.map fun el =>
      { el with display := if el.dataLang = lang then "" else "none" }
    sidebarEls := d.sidebarEls.map fun el =>
      { el with textContent := (getLangAttr el lang).getD "" }
    langButtons := d.langButtons.map fun b =>
      { b with active := b.id = "lang-" ++ lang ++ "-btn" } }

/-- JavaScript x || dflt for a nullable string: null and "" are falsy. -/
def jsOrOpt (x : Option String) (dflt : String) : String :=
  match x with
  | none => dflt
  | some s => if s = "" then dflt else s

/-- JavaScript s || dflt for a plain string: "" is falsy. -/
def jsOrStr (s dflt : String) : String :=
  if s = "" then dflt else s

/-- The state-changing part of the DOMContentLoaded handler, src/script.js
lines 131-141: restore the persisted theme (default "dark") and apply it, then
restore the persisted language (default "hr") and apply it. -/
def initPage (d : Doc) : Doc :=
  let d1 := setTheme (jsOrOpt d.storageTheme "dark") d
  switchLanguage (jsOrOpt d1.storageLanguage "hr") d1

/-- Observable effect of one click on a sidebar navigation link. -/
structure ClickEffect where
  defaultPrevented : Bool
  scrollTop : Option Int
  sidebarActive : Bool
deriving DecidableEq

/-- The click handler attached to every sidebar-nav anchor, src/script.js
lines 144-162: always preventDefault; when the href anchor matches a document
element, smooth-scroll to its offsetTop minus 80 and, on viewports of width at
most 1024, toggle the sidebar class; otherwise do nothing further. -/
def sidebarLinkClick (d : Doc) (href : String) (innerWidth : Nat) : ClickEffect :=
  match d.sections.find? (fun s => "#" ++ s.id = href) with
  | some target =>
      { defaultPrevented := true
        scrollTop := some (target.offsetTop - 80)
        sidebarActive := if innerWidth ≤ 1024 then !d.sidebarActive else d.sidebarActive }
  | none =>
      { defaultPrevented := true
        scrollTop := none
        sidebarActive := d.sidebarActive }

/-- Characters encodeURIComponent leaves unescaped: letters, digits and
- _ . ! ~ * apostrophe ( ) given here by code point. -/
def isURIUnescaped (c : Char) : Bool :=
  let n := c.toNat
  (65 ≤ n && n ≤ 90) || (97 ≤ n && n ≤ 122) || (48 ≤ n && n ≤ 57) ||
    n == 45 || n == 95 || n == 46 || n == 33 || n == 126 || n == 42 ||
    n == 39 || n == 40 || n == 41

/-- Uppercase hexadecimal digit for a value below 16. -/
def hexDigitUpper (n : Nat) : Char :=
  if n < 10 then Char.ofNat (48 + n) else Char.ofNat (55 + n)

/-- UTF-8 byte sequence of a Unicode code point. -/
def utf8Bytes (n : Nat) : List Nat :=
  if n < 128 then [n]
  else if n < 2048 then [192 + n / 64, 128 + n % 64]
  else if n < 65536 then [224 + n / 4096, 128 + n / 64 % 64, 128 + n % 64]
  else [240 + n / 262144, 128 + n / 4096 % 64, 128 + n / 64 % 64, 128 + n % 64]

/-- Percent-encoding of one byte, uppercase hexadecimal. -/
def percentByte (b : Nat) : String :=
  String.mk [Char.ofNat 37, hexDigitUpper (b / 16), hexDigitUpper (b % 16)]

/-- encodeURIComponent: unescaped characters pass through, every other
character is percent-encoded per UTF-8 byte. -/
def encodeURIComponent (s : String) : String :=
  String.join (s.toList.map fun c =>
    if isURIUnescaped c then String.singleton c
    else String.join ((utf8Bytes c.toNat).map percentByte))

/-- One per-language prompt object literal inside askAI. -/
structure PromptTable where
  general : String
  beginner_concepts : String
  auth_help : String
  endpoints : String
deriving DecidableEq

/-- The Croatian prompt table from src/script.js lines 109-114. -/
def hrPrompts : PromptTable :=
  { general := "Zdravo BornAI! Želim naučiti više o SudReg API-ju. Možeš li mi pomoći?"
    beginner_concepts := "Pojasni mi osnovne koncepte API-ja (HTTP, JSON, Endpoint) na jednostavan način."
    auth_help := "Trebam pomoć oko OAuth2 autentifikacije za SudReg API. Kako to funkcionira?"
    endpoints := "Možeš li mi objasniti različite krajnje točke (endpoints) SudReg API-ja i što koja radi?" }

/-- The English prompt table from src/script.js lines 115-120. -/
def enPrompts : PromptTable :=
  { general := "Hello BornAI! I want to learn more about the SudReg API. Can you help me?"
    beginner_concepts := "Explain the basic API concepts (HTTP, JSON, Endpoint) to me in a simple way."
    auth_help := "I need help with OAuth2 authentication for the SudReg API. How does it work?"
    endpoints := "Can you explain the different SudReg API endpoints and what each one does?" }

/-- JavaScript property access on the prompts object literal: undefined
(none) for every key other than hr and en. -/
def promptsFor (lang : String) : Option PromptTable :=
  if lang = "hr" then some hrPrompts
  else if lang = "en" then some enPrompts
  else none

/-- JavaScript property access on one prompt table: undefined (none) for a
key outside the four topic keys. -/
def promptLookup (t : PromptTable) (k : String) : Option String :=
  if k = "general" then some t.general
  else if k = "beginner_concepts" then some t.beginner_concepts
  else if k = "auth_help" then some t.auth_help
  else if k = "endpoints" then some t.endpoints
  else none

/-- Base of the assistant URL built in askAI, src/script.js line 126. -/
def bornAIBase : String := "https://bornai.com.hr/?q="

/-- askAI from src/script.js lines 104-128. The document language defaults to
"hr" when empty; the member access prompts[lang][context] throws a TypeError
when prompts[lang] is undefined, modelled as Except.error; otherwise the topic
prompt, or the general prompt when the topic lookup is falsy, is URL-encoded
onto the assistant base URL, which is the address passed to window.open. -/
def askAI (d : Doc) (context : String) : Except String String :=
  let lang := jsOrStr d.lang "hr"
  match promptsFor lang with
  | none => Except.error "TypeError: prompts[lang] is undefined"
  | some t =>
      let prompt :=
        match promptLookup t context with
        | some p => if p = "" then t.general else p
        | none => t.general
      Except.ok (bornAIBase ++ encodeURIComponent prompt)

/-- A theme icon is visible when its inline display is not none. -/
def sunVisible (d : Doc) : Prop := d.sunDisplay ≠ "none"

/-- The moon icon is visible when its inline display is not none. -/
def moonVisible (d : Doc) : Prop := d.moonDisplay ≠ "none"

/-- A content element is visible when its inline display is not none. -/
def elVisible (el : ContentEl) : Prop := el.display ≠ "none"

/-- A small concrete document used to instantiate the theorems: fresh
session (no persisted keys, no root theme attribute, empty lang). -/
def doc0 : Doc :=
  { dataTheme := none
    lang := ""
    storageTheme := none
    storageLanguage := none
    sunDisplay := "block"
    moonDisplay := "none"
    prismHref := some prismLightHref
    contentEls := [⟨"hr", ""⟩, ⟨"en", "none"⟩]
    sidebarEls := [⟨some "Pregled", some "Overview", "Pregled"⟩]
    langButtons := [⟨"lang-hr-btn", true⟩, ⟨"lang-en-btn", false⟩]
    sidebarActive := false
    sections := [⟨"overview", 200⟩, ⟨"auth", 900⟩] }

/-- doc0 with document language en. -/
def docEn : Doc := { doc0 with lang := "en" }

/-- doc0 with document language hr. -/
def docHr : Doc := { doc0 with lang := "hr" }

/-- doc0 with an unrecognized nonempty document language. -/
def docDe : Doc := { doc0 with lang := "de" }

/-- doc0 with the root attribute dark but a stale persisted theme value. -/
def docStaleTheme : Doc :=
  { doc0 with dataTheme := some "dark", storageTheme := some "stale" }

/-- Mapping a constant function over an option twice keeps only the outer
constant. -/
lemma map_const_const (a b : String) (o : Option String) :
    Option.map (fun _ => a) (Option.map (fun _ => b) o) = Option.map (fun _ => a) o := by
  cases o <;> rfl

/-- Claim C1: for every valid theme value t, setTheme t persists t as the
theme key, and afterwards exactly one theme icon is visible, the one matching
t (moon for dark, sun for light). -/
theorem setTheme_valid_theme (t : String) (d : Doc)
    (h : t = "dark" ∨ t = "light") :
    (setTheme t d).storageTheme = some t ∧
    (sunVisible (setTheme t d) ↔ t = "light") ∧
    (moonVisible (setTheme t d) ↔ t = "dark") := by
  rcases h with rfl | rfl <;>
    simp [setTheme, sunVisible, moonVisible]

/-- Witness for C1 at t = dark on the concrete document doc0. -/
theorem setTheme_valid_theme_w :
    (("dark" : String) = "dark" ∨ ("dark" : String) = "light") ∧
    ((setTheme "dark" doc0).storageTheme = some "dark" ∧
      (sunVisible (setTheme "dark" doc0) ↔ ("dark" : String) = "light") ∧
      (moonVisible (setTheme "dark" doc0) ↔ ("dark" : String) = "dark")) :=
  ⟨Or.inl rfl, setTheme_valid_theme "dark" doc0 (Or.inl rfl)⟩

/-- Claim C9: setTheme does not validate its input: every t other than "dark"
takes the light branch (sun shown, moon hidden, light stylesheet when the link
element exists) while the raw t becomes both the root attribute and the
persisted theme value. -/
theorem setTheme_no_validation (t : String) (d : Doc) (h : t ≠ "dark") :
    (setTheme t d).sunDisplay = "block" ∧
    (setTheme t d).moonDisplay = "none" ∧
    (setTheme t d).prismHref = d.prismHref.map (fun _ => prismLightHref) ∧
    (setTheme t d).dataTheme = some t ∧
    (setTheme t d).storageTheme = some t := by
  simp [setTheme, h]

/-- Witness for C9 at the out-of-domain value t = weird on doc0. -/
theorem setTheme_no_validation_w :
    (("weird" : String) ≠ "dark" ∧ ("weird" : String) ≠ "light") ∧
    ((setTheme "weird" doc0).sunDisplay = "block" ∧
      (setTheme "weird" doc0).moonDisplay = "none" ∧
      (setTheme "weird" doc0).prismHref = doc0.prismHref.map (fun _ => prismLightHref) ∧
      (setTheme "weird" doc0).dataTheme = some "weird" ∧
      (setTheme "weird" doc0).storageTheme = some "weird") :=
  ⟨by decide, setTheme_no_validation "weird" doc0 (by decide)⟩

/-- Claim C4 counterexample: on a concrete document whose root theme attribute
is unset, toggleTheme computes "dark", not "light". -/
theorem toggleTheme_unset_cex :
    doc0.dataTheme = none ∧
    (toggleTheme doc0).dataTheme = some "dark" ∧
    (toggleTheme doc0).dataTheme ≠ some "light" := by
  decide

/-- Claim C4 amended: with the root theme attribute unset, the strict equality
of null against "dark" is false, so toggleTheme invokes setTheme with "dark". -/
theorem toggleTheme_unset (d : Doc) (h : d.dataTheme = none) :
    toggleTheme d = setTheme "dark" d := by
  simp [toggleTheme, h]

/-- Witness for the amended C4 on doc0. -/
theorem toggleTheme_unset_w :
    doc0.dataTheme = none ∧ toggleTheme doc0 = setTheme "dark" doc0 :=
  ⟨rfl, toggleTheme_unset doc0 rfl⟩

/-- Claim C6 counterexample: a document whose root attribute is dark but whose
persisted value disagrees is not returned to its starting state by a double
toggle: the persisted value ends up dark. -/
theorem toggleTheme_involution_cex :
    docStaleTheme.dataTheme = some "dark" ∧
    (toggleTheme (toggleTheme docStaleTheme)).storageTheme ≠ docStaleTheme.storageTheme := by
  decide

/-- Claim C6 amended: toggleTheme is an involution on consistent theme states:
from any state just produced by setTheme with a valid value, applying
toggleTheme twice returns exactly to that state. -/
theorem toggleTheme_involution (t : String) (d : Doc)
    (h : t = "dark" ∨ t = "light") :
    toggleTheme (toggleTheme (setTheme t d)) = setTheme t d := by
  rcases h with rfl | rfl <;>
    simp [toggleTheme, setTheme, map_const_const] <;>
    cases d.prismHref <;> rfl

/-- Witness for the amended C6 at t = light on doc0. -/
theorem toggleTheme_involution_w :
    (("light" : String) = "dark" ∨ ("light" : String) = "light") ∧
    toggleTheme (toggleTheme (setTheme "light" doc0)) = setTheme "light" doc0 :=
  ⟨Or.inr rfl, toggleTheme_involution "light" doc0 (Or.inr rfl)⟩

/-- Claim C2: for every valid language l, after switchLanguage l exactly the
content elements whose data-lang equals l are visible and the others are
hidden, and every sidebar element that carries the data-l attribute displays
exactly that attribute value. -/
theorem switchLanguage_valid (l : String) (d : Doc)
    (h : l = "hr" ∨ l = "en") :
    (∀ el ∈ (switchLanguage l d).contentEls, elVisible el ↔ el.dataLang = l) ∧
    (∀ el ∈ (switchLanguage l d).sidebarEls, ∀ v,
      getLangAttr el l = some v → el.textContent = v) := by
  constructor
  · intro el hel
    simp only [switchLanguage, List.mem_map] at hel
    obtain ⟨e0, -, rfl⟩ := hel
    by_cases hd : e0.dataLang = l
    · simp [elVisible, hd]
    · simp [elVisible, hd]
  · intro el hel v hv
    simp only [switchLanguage, List.mem_map] at hel
    obtain ⟨e0, -, rfl⟩ := hel
    rcases h with rfl | rfl
    · simp only [getLangAttr] at hv ⊢
      simp_all
    · simp only [getLangAttr] at hv ⊢
      simp_all

/-- Witness for C2 at l = hr on doc0. -/
theorem switchLanguage_valid_w :
    (("hr" : String) = "hr" ∨ ("hr" : String) = "en") ∧
    ((∀ el ∈ (switchLanguage "hr" doc0).contentEls, elVisible el ↔ el.dataLang = "hr") ∧
      (∀ el ∈ (switchLanguage "hr" doc0).sidebarEls, ∀ v,
        getLangAttr el "hr" = some v → el.textContent = v)) :=
  ⟨Or.inl rfl, switchLanguage_valid "hr" doc0 (Or.inl rfl)⟩

/-- Claim C3: on a fresh session with neither persisted key present, startup
applies theme dark (attribute, persisted value, moon icon visible) and
language hr (lang property, persisted value, Croatian content visible). -/
theorem initPage_fresh (d : Doc)
    (h1 : d.storageTheme = none) (h2 : d.storageLanguage = none) :
    (initPage d).dataTheme = some "dark" ∧
    (initPage d).storageTheme = some "dark" ∧
    (initPage d).lang = "hr" ∧
    (initPage d).storageLanguage = some "hr" ∧
    moonVisible (initPage d) ∧ ¬ sunVisible (initPage d) ∧
    (∀ el ∈ (initPage d).contentEls, elVisible el ↔ el.dataLang = "hr") := by
  have hstep : initPage d = switchLanguage "hr" (setTheme "dark" d) := by
    simp [initPage, jsOrOpt, setTheme, h1, h2]
  rw [hstep]
  refine ⟨rfl, rfl, rfl, rfl, ?_, ?_, ?_⟩
  · simp [moonVisible, switchLanguage, setTheme]
  · simp [sunVisible, switchLanguage, setTheme]
  · intro el hel
    simp only [switchLanguage, List.mem_map] at hel
    obtain ⟨e0, -, rfl⟩ := hel
    by_cases hd : e0.dataLang = "hr"
    · simp [elVisible, hd]
    · simp [elVisible, hd]

/-- Witness for C3 on the fresh document doc0. -/
theorem initPage_fresh_w :
    (doc0.storageTheme = none ∧ doc0.storageLanguage = none) ∧
    ((initPage doc0).dataTheme = some "dark" ∧
      (initPage doc0).storageTheme = some "dark" ∧
      (initPage doc0).lang = "hr" ∧
      (initPage doc0).storageLanguage = some "hr" ∧
      moonVisible (initPage doc0) ∧ ¬ sunVisible (initPage doc0) ∧
      (∀ el ∈ (initPage doc0).contentEls, elVisible el ↔ el.dataLang = "hr")) :=
  ⟨⟨rfl, rfl⟩, initPage_fresh doc0 rfl rfl⟩

/-- Claim C5 counterexample: with the unrecognized nonempty document language
de, askAI throws a TypeError instead of falling back to a general prompt. -/
theorem askAI_unknown_lang_cex :
    docDe.lang = "de" ∧
    askAI docDe "general" = Except.error "TypeError: prompts[lang] is undefined" :=
  ⟨rfl, rfl⟩

/-- Claim C5 amended: the active language is the document language, "hr" when
empty; when the active language is recognized (its prompt table exists) and
the topic key is not in the table, askAI falls back to that table's general
prompt and opens the assistant URL built from it. -/
theorem askAI_fallback (d : Doc) (context : String) (t : PromptTable)
    (h1 : promptsFor (jsOrStr d.lang "hr") = some t)
    (h2 : promptLookup t context = none) :
    askAI d context = Except.ok (bornAIBase ++ encodeURIComponent t.general) := by
  simp [askAI, h1, h2]

/-- Witness for the amended C5: unknown topic key with language hr falls back
to the Croatian general prompt. -/
theorem askAI_fallback_w :
    (promptsFor (jsOrStr docHr.lang "hr") = some hrPrompts ∧
      promptLookup hrPrompts "unknown_key" = none) ∧
    askAI docHr "unknown_key" =
      Except.ok (bornAIBase ++ encodeURIComponent hrPrompts.general) :=
  ⟨⟨rfl, rfl⟩, askAI_fallback docHr "unknown_key" hrPrompts rfl rfl⟩

/-- Claim C8: askAI with topic auth_help and document language en opens the
assistant URL whose single query parameter is the URL-encoding of exactly the
English OAuth2 help prompt. -/
theorem askAI_auth_help_en :
    docEn.lang = "en" ∧
    askAI docEn "auth_help" =
      Except.ok (bornAIBase ++ encodeURIComponent
        "I need help with OAuth2 authentication for the SudReg API. How does it work?") :=
  ⟨rfl, rfl⟩

/-- Claim C7 counterexample: a click on a link whose anchor matches no section
of the concrete document triggers no scroll at all, so a smooth scroll is not
always triggered. -/
theorem sidebarClick_always_scroll_cex :
    (sidebarLinkClick doc0 "#missing" 800).defaultPrevented = true ∧
    (sidebarLinkClick doc0 "#missing" 800).scrollTop = none := by
  decide

/-- Claim C7 amended: every click on a sidebar link prevents the native jump,
and a smooth scroll is triggered exactly when the anchor matches a section,
with destination that section's offsetTop minus 80. -/
theorem sidebarClick_scroll (d : Doc) (href : String) (w : Nat) :
    (sidebarLinkClick d href w).defaultPrevented = true ∧
    (sidebarLinkClick d href w).scrollTop =
      (d.sections.find? (fun s => "#" ++ s.id = href)).map (fun s => s.offsetTop - 80) := by
  unfold sidebarLinkClick
  cases d.sections.find? (fun s => "#" ++ s.id = href) <;> simp

/-- Claim C10: a click on a sidebar link whose anchor matches no element still
prevents the default navigation but initiates no scroll and leaves the sidebar
class unchanged, for every viewport width. -/
theorem sidebarClick_noTarget (d : Doc) (href : String) (w : Nat)
    (h : d.sections.find? (fun s => "#" ++ s.id = href) = none) :
    (sidebarLinkClick d href w).defaultPrevented = true ∧
    (sidebarLinkClick d href w).scrollTop = none ∧
    (sidebarLinkClick d href w).sidebarActive = d.sidebarActive := by
  simp [sidebarLinkClick, h]

/-- Witness for C10: anchor nope on doc0 at a narrow viewport width. -/
theorem sidebarClick_noTarget_w :
    doc0.sections.find? (fun s => "#" ++ s.id = "#nope") = none ∧
    ((sidebarLinkClick doc0 "#nope" 800).defaultPrevented = true ∧
      (sidebarLinkClick doc0 "#nope" 800).scrollTop = none ∧
      (sidebarLinkClick doc0 "#nope" 800).sidebarActive = doc0.sidebarActive) :=
  ⟨by decide, sidebarClick_noTarget doc0 "#nope" 800 (by decide)⟩

end SudRegGuide
